import Mathlib

/-!
Verification development for `src/StockMarket/script.js`.

The file is a single browser click handler: it validates a ticker input,
POSTs to a prediction endpoint, and renders the decoded response into fixed
page elements and a line chart.  We shallowly embed the handler as a pure
function from a page state and the outcome of the awaited network call to a
new page state.

Numeric model: ECMAScript numbers that stay finite are modelled as exact
rationals; the special values Infinity, -Infinity and NaN — which arise here
only from the unguarded division `change / data.last_close` — are explicit
constructors.  `Number.prototype.toFixed(2)` (round half away from zero at
two decimals) and the string-to-number coercion that `change >= 0` and
`change / data.last_close` perform on the `toFixed` result are modelled
exactly; JS `-0` is identified with `0`, which is sound for every use in
this handler (`-0 >= 0` is true in JS and `"-0.00"` renders like `"0.00"`
after the arithmetic performed here).
-/

/-- ECMAScript numbers as used by the handler: finite values are exact
rationals, plus the non-finite values produced by division by zero. -/
inductive JNum where
  | fin (q : ℚ)
  | inf
  | ninf
  | nan
deriving DecidableEq

/-- JS division `a / b` of finite operands: division by zero yields
Infinity, -Infinity or NaN according to the sign of the numerator. -/
def jdiv (a b : ℚ) : JNum :=
  if b = 0 then
    if 0 < a then JNum.inf else if a < 0 then JNum.ninf else JNum.nan
  else JNum.fin (a / b)

/-- JS multiplication by the finite literal `100`; non-finite values are
absorbing (`Infinity * 100 = Infinity`, `NaN * 100 = NaN`). -/
def jmul100 : JNum → JNum
  | JNum.fin q => JNum.fin (q * 100)
  | JNum.inf => JNum.inf
  | JNum.ninf => JNum.ninf
  | JNum.nan => JNum.nan

/-- The integer `n` of ECMAScript `toFixed(2)` applied to `|q|`: the integer
closest to `|q| * 100`, ties going to the larger integer. -/
def fix2Int (q : ℚ) : ℤ := ⌊|q| * 100 + 1 / 2⌋

/-- The exact numeric value the string `q.toFixed(2)` converts back to under
JS string-to-number coercion (with `-0` identified with `0`). -/
def fix2 (q : ℚ) : ℚ := (if q < 0 then -1 else 1) * (fix2Int q : ℚ) / 100

/-- Left-pad a two-decimal fractional part with `0`. -/
def twoDigitString (m : ℕ) : String :=
  (if m < 10 then "0" else "") ++ toString m

/-- ECMAScript `q.toFixed(2)` for a finite `q`: sign, integer part, dot, two
fractional digits (e.g. `(-0.001).toFixed(2) = "-0.00"`). -/
def fmtFix2 (q : ℚ) : String :=
  (if q < 0 then "-" else "")
    ++ toString ((fix2Int q).toNat / 100) ++ "." ++ twoDigitString ((fix2Int q).toNat % 100)

/-- `toFixed(2)` on a possibly non-finite JS number: non-finite values render
as their `ToString` image. -/
def jToFixed2 : JNum → String
  | JNum.fin q => fmtFix2 q
  | JNum.inf => "Infinity"
  | JNum.ninf => "-Infinity"
  | JNum.nan => "NaN"

/-- Fractional decimal digits of `rem / den`, up to `fuel` digits, stopping
when the remainder vanishes. -/
def fracDigits (fuel : ℕ) (rem den : ℕ) : String :=
  match fuel with
  | 0 => ""
  | fuel + 1 =>
    if rem = 0 then ""
    else toString (rem * 10 / den) ++ fracDigits fuel (rem * 10 % den) den

/-- ECMAScript `ToString` of a finite number, for the decimal-exact values
that flow through this handler (used by the template literals
`` `$${data.last_close}` `` and `` `$${data.predicted_price}` ``). -/
def ratToJsString (q : ℚ) : String :=
  (if q < 0 then "-" else "")
    ++ toString (q.num.natAbs / q.den)
    ++ (if fracDigits 30 (q.num.natAbs % q.den) q.den = ""
        then "" else "." ++ fracDigits 30 (q.num.natAbs % q.den) q.den)

/-- JS `String.prototype.trim`: drop leading and trailing whitespace. -/
def jsTrim (s : String) : String :=
  String.mk (((s.data.dropWhile Char.isWhitespace).reverse.dropWhile
    Char.isWhitespace).reverse)

/-- The page elements the handler reads or writes: one field per DOM node
(`innerText`, `style.display`, `className`) touched by `script.js`. -/
structure Dom where
  tickerInputValue : String
  errorMessageText : String
  errorMessageDisplay : String
  resultsSectionDisplay : String
  infoSectionDisplay : String
  btnTextDisplay : String
  btnLoadingDisplay : String
  tickerDisplayText : String
  currentPriceText : String
  predictedPriceText : String
  priceChangeText : String
  percentChangeText : String
  badgeText : String
  badgeClassName : String
deriving DecidableEq

/-- The configuration handed to `new Chart`: the x labels, the historical
dataset (`data.history.closes`) and the predicted dataset (null padding,
then `last_close`, then the predicted prices). -/
structure ChartConfig where
  labels : List String
  historicalData : List ℚ
  predictedData : List (Option ℚ)
deriving DecidableEq

/-- Chart-related process state: the module-level `stockChart` reference,
the identities of chart objects not yet destroyed, a fresh-id counter, and
the configuration of the most recently constructed chart. -/
structure ChartState where
  stockChart : Option ℕ
  live : List ℕ
  nextId : ℕ
  lastConfig : Option ChartConfig
deriving DecidableEq

/-- `stockChart` is `null` at page load and no chart object exists. -/
def initialChartState : ChartState :=
  { stockChart := none, live := [], nextId := 0, lastConfig := none }

/-- Whole page state: DOM plus chart state. -/
structure PageState where
  dom : Dom
  chart : ChartState
deriving DecidableEq

/-- The decoded response body (external wire contract): ticker, last close,
predicted price, history (dates and closes), predicted entries, and an
optional application-level error string. -/
structure PredResponse where
  ticker : String
  last_close : ℚ
  predicted_price : ℚ
  history_dates : List String
  history_closes : List ℚ
  predicted : List (String × ℚ)
  error : Option String
deriving DecidableEq

/-- Outcome of `await fetch(...)` followed by `await response.json()`:
either a decoded body, or a transport/parse exception thrown by one of the
two awaited calls (both throw before any result rendering). -/
inductive FetchResult where
  | ok (data : PredResponse)
  | exn
deriving DecidableEq

/-- JS truthiness of `data.error`: an absent field and the empty string are
falsy, every other string is truthy. -/
def errTruthy : Option String → Bool
  | some s => !(s == "")
  | none => false

/-- `(data.predicted_price - data.last_close).toFixed(2)` coerced back to a
number, as `change >= 0` and `change / data.last_close` use it. -/
def changeValue (data : PredResponse) : ℚ :=
  fix2 (data.predicted_price - data.last_close)

/-- The string `change` of line 42. -/
def changeString (data : PredResponse) : String :=
  fmtFix2 (data.predicted_price - data.last_close)

/-- The string `percent` of line 43:
`((change / data.last_close) * 100).toFixed(2)`. -/
def percentString (data : PredResponse) : String :=
  jToFixed2 (jmul100 (jdiv (changeValue data) data.last_close))

/-- Line 58: `[...data.history.dates, ...data.predicted.map(p => p.date)]`. -/
def combinedLabels (data : PredResponse) : List String :=
  data.history_dates ++ data.predicted.map (fun p => p.1)

/-- Line 59: `[...data.history.closes, ...data.predicted.map(p => p.price)]`
(computed by the handler; not referenced by the chart configuration). -/
def combinedPrices (data : PredResponse) : List ℚ :=
  data.history_closes ++ data.predicted.map (fun p => p.2)

/-- Line 78: `[...new Array(data.history.closes.length - 1).fill(null),
data.last_close, ...data.predicted.map(p => p.price)]`.  When
`data.history.closes` is empty, `new Array(-1)` throws a RangeError. -/
def predictedDataset (data : PredResponse) : Except Unit (List (Option ℚ)) :=
  if data.history_closes.length = 0 then Except.error ()
  else Except.ok (List.replicate (data.history_closes.length - 1) none
    ++ [some data.last_close] ++ data.predicted.map (fun p => some p.2))

/-- Lines 37-55: populate the six result text fields and the badge, show the
results section, hide the info section. -/
def renderResults (data : PredResponse) (d : Dom) : Dom :=
  { d with
    tickerDisplayText := data.ticker
    currentPriceText := "$" ++ ratToJsString data.last_close
    predictedPriceText := "$" ++ ratToJsString data.predicted_price
    priceChangeText := "$" ++ changeString data
    percentChangeText := percentString data ++ "%"
    badgeText := if 0 ≤ changeValue data then "Bullish ↑" else "Bearish ↓"
    badgeClassName :=
      "badge " ++ (if 0 ≤ changeValue data then "positive" else "negative")
    resultsSectionDisplay := "block"
    infoSectionDisplay := "none" }

/-- Lines 62-65: `if (stockChart) stockChart.destroy();` — the referenced
chart object, if any, stops being live. -/
def destroyCurrent (c : ChartState) : ChartState :=
  match c.stockChart with
  | some cid => { c with live := c.live.erase cid }
  | none => c

/-- Lines 66-95: construct the new chart object and assign it to
`stockChart`. -/
def createChart (cfg : ChartConfig) (c : ChartState) : ChartState :=
  { stockChart := some c.nextId
    live := c.nextId :: c.live
    nextId := c.nextId + 1
    lastConfig := some cfg }

/-- The `try` block (lines 22-96) after the loading spinner is shown: the
`.error` result carries the state at the point the exception was thrown,
for the `catch` block to continue from. -/
def tryBlock (fr : FetchResult) (st : PageState) : Except PageState PageState :=
  match fr with
  | FetchResult.exn => Except.error st
  | FetchResult.ok data =>
    if errTruthy data.error then
      Except.ok { st with dom := { st.dom with
        errorMessageText := data.error.getD ""
        errorMessageDisplay := "block" } }
    else
      let st1 : PageState := { st with dom := renderResults data st.dom }
      let st2 : PageState := { st1 with chart := destroyCurrent st1.chart }
      match predictedDataset data with
      | Except.error _ => Except.error st2
      | Except.ok pd =>
        let cfg : ChartConfig :=
          { labels := combinedLabels data
            historicalData := data.history_closes
            predictedData := pd }
        Except.ok { st2 with chart := createChart cfg st2.chart }

/-- Result of one run of the click handler: the final page state, whether
the network request was issued, and whether the `finally` cleanup ran. -/
structure RunResult where
  st : PageState
  networkCalled : Bool
  finallyRan : Bool
deriving DecidableEq

/-- The click handler of `script.js`, as a function of the page state and
the outcome the awaited network call would have. -/
def clickHandler (st : PageState) (fr : FetchResult) : RunResult :=
  if jsTrim st.dom.tickerInputValue = "" then
    { st := { st with dom := { st.dom with
        errorMessageText := "Please enter a stock ticker!"
        errorMessageDisplay := "block" } }
      networkCalled := false
      finallyRan := false }
  else
    let st1 : PageState := { st with dom := { st.dom with
      errorMessageDisplay := "none"
      btnTextDisplay := "none"
      btnLoadingDisplay := "inline-flex" } }
    let st2 : PageState :=
      match tryBlock fr st1 with
      | Except.ok s => s
      | Except.error s => { s with dom := { s.dom with
          errorMessageText := "Error connecting to server."
          errorMessageDisplay := "block" } }
    { st := { st2 with dom := { st2.dom with
        btnTextDisplay := "inline"
        btnLoadingDisplay := "none" } }
      networkCalled := true
      finallyRan := true }

/-! ## Sample states and responses used by the witnesses -/

/-- Package a DOM into a freshly loaded page (no chart yet). -/
def mkPage (d : Dom) : PageState :=
  { dom := d, chart := initialChartState }

/-- A freshly loaded page whose ticker input holds only whitespace. -/
def wsDom : Dom :=
  { tickerInputValue := "   "
    errorMessageText := ""
    errorMessageDisplay := "none"
    resultsSectionDisplay := "none"
    infoSectionDisplay := "block"
    btnTextDisplay := "inline"
    btnLoadingDisplay := "none"
    tickerDisplayText := ""
    currentPriceText := ""
    predictedPriceText := ""
    priceChangeText := ""
    percentChangeText := ""
    badgeText := ""
    badgeClassName := "" }

/-- A freshly loaded page whose ticker input holds a symbol. -/
def aaplDom : Dom :=
  { wsDom with tickerInputValue := "AAPL" }

/-- A well-formed, error-free sample response. -/
def sampleResp : PredResponse :=
  { ticker := "AAPL"
    last_close := 100
    predicted_price := 105
    history_dates := ["2024-01-01", "2024-01-02"]
    history_closes := [99, 100]
    predicted := [("2024-01-03", 105)]
    error := none }

/-! ## Claims -/

/-- C1: a click whose trimmed ticker input is empty (including
whitespace-only input) sets the fixed validation message and its display,
and nothing else: no network request is issued and every other page
element, and the chart state, are unchanged. -/
theorem empty_ticker_shows_validation (st : PageState) (fr : FetchResult)
    (h : jsTrim st.dom.tickerInputValue = "") :
    clickHandler st fr =
      { st := { st with dom := { st.dom with
          errorMessageText := "Please enter a stock ticker!"
          errorMessageDisplay := "block" } }
        networkCalled := false
        finallyRan := false } := by
  simp [clickHandler, h]

/-- Witness for C1: a whitespace-only input on a concrete page. -/
theorem empty_ticker_shows_validation_witness :
    jsTrim (mkPage wsDom).dom.tickerInputValue = "" ∧
    clickHandler (mkPage wsDom) FetchResult.exn =
      { st := { mkPage wsDom with dom := { (mkPage wsDom).dom with
          errorMessageText := "Please enter a stock ticker!"
          errorMessageDisplay := "block" } }
        networkCalled := false
        finallyRan := false } :=
  ⟨by decide, empty_ticker_shows_validation (mkPage wsDom) FetchResult.exn (by decide)⟩

/-- A response carrying an application-level error string. -/
def errResp : PredResponse :=
  { sampleResp with error := some "No data found for ticker" }

/-- C2: a response whose decoded body carries a non-empty `error` field
makes the handler display that string verbatim and stop: the final state
differs from the initial one only in the error-message element (and the
`finally` restoration of the button), so the results section, the info
section, the six result text fields and the chart state are unchanged. -/
theorem error_field_displayed_verbatim (st : PageState) (data : PredResponse)
    (s : String)
    (hTick : jsTrim st.dom.tickerInputValue ≠ "")
    (hErr : data.error = some s) (hNe : s ≠ "") :
    clickHandler st (FetchResult.ok data) =
      { st := { st with dom := { st.dom with
          errorMessageText := s
          errorMessageDisplay := "block"
          btnTextDisplay := "inline"
          btnLoadingDisplay := "none" } }
        networkCalled := true
        finallyRan := true } := by
  simp [clickHandler, tryBlock, hTick, errTruthy, hErr, hNe]

/-- Witness for C2: a concrete page and a concrete error response. -/
theorem error_field_displayed_verbatim_witness :
    jsTrim (mkPage aaplDom).dom.tickerInputValue ≠ "" ∧
    errResp.error = some "No data found for ticker" ∧
    "No data found for ticker" ≠ "" ∧
    clickHandler (mkPage aaplDom) (FetchResult.ok errResp) =
      { st := { mkPage aaplDom with dom := { (mkPage aaplDom).dom with
          errorMessageText := "No data found for ticker"
          errorMessageDisplay := "block"
          btnTextDisplay := "inline"
          btnLoadingDisplay := "none" } }
        networkCalled := true
        finallyRan := true } :=
  ⟨by decide, rfl, by decide,
    error_field_displayed_verbatim (mkPage aaplDom) errResp
      "No data found for ticker" (by decide) rfl (by decide)⟩

/-- C4: when the awaited network call or the response decoding throws
(transport or parse failure), the handler catches it, shows the generic
connectivity message, and the `finally` block restores the loading
indicator to its default state (button text visible, spinner hidden). -/
theorem network_exception_generic_message (st : PageState)
    (hTick : jsTrim st.dom.tickerInputValue ≠ "") :
    clickHandler st FetchResult.exn =
      { st := { st with dom := { st.dom with
          errorMessageText := "Error connecting to server."
          errorMessageDisplay := "block"
          btnTextDisplay := "inline"
          btnLoadingDisplay := "none" } }
        networkCalled := true
        finallyRan := true } := by
  simp [clickHandler, tryBlock, hTick]

/-- Witness for C4: a thrown network call on a concrete page. -/
theorem network_exception_generic_message_witness :
    jsTrim (mkPage aaplDom).dom.tickerInputValue ≠ "" ∧
    clickHandler (mkPage aaplDom) FetchResult.exn =
      { st := { mkPage aaplDom with dom := { (mkPage aaplDom).dom with
          errorMessageText := "Error connecting to server."
          errorMessageDisplay := "block"
          btnTextDisplay := "inline"
          btnLoadingDisplay := "none" } }
        networkCalled := true
        finallyRan := true } :=
  ⟨by decide, network_exception_generic_message (mkPage aaplDom) (by decide)⟩

/-- Counterexample to C5 as stated: on a click whose ticker input is
whitespace-only (validation failure), the handler returns before the `try`
block, so the `finally` loading-indicator cleanup does not run. -/
theorem cleanup_skipped_on_empty_ticker :
    (clickHandler (mkPage wsDom) FetchResult.exn).finallyRan = false := by
  decide

/-- C5 (amended): on every path that passes ticker validation the `finally`
cleanup runs and the button ends text-visible / spinner-hidden; on the
validation-failure path the handler returns before touching the button
elements, so the cleanup does not run but the button keeps its prior state —
hence whenever the button starts in its normal non-loading state it also
ends in it, on every path. -/
theorem button_restored_on_all_paths (st : PageState) (fr : FetchResult)
    (hT : st.dom.btnTextDisplay = "inline")
    (hL : st.dom.btnLoadingDisplay = "none") :
    (clickHandler st fr).st.dom.btnTextDisplay = "inline" ∧
    (clickHandler st fr).st.dom.btnLoadingDisplay = "none" ∧
    (jsTrim st.dom.tickerInputValue ≠ "" →
      (clickHandler st fr).finallyRan = true) ∧
    (jsTrim st.dom.tickerInputValue = "" →
      (clickHandler st fr).finallyRan = false) := by
  by_cases h : jsTrim st.dom.tickerInputValue = "" <;>
    simp [clickHandler, h, hT, hL]

/-- Witness for C5 (amended): concrete page in its normal button state. -/
theorem button_restored_on_all_paths_witness :
    (mkPage aaplDom).dom.btnTextDisplay = "inline" ∧
    (mkPage aaplDom).dom.btnLoadingDisplay = "none" ∧
    (clickHandler (mkPage aaplDom) FetchResult.exn).st.dom.btnTextDisplay = "inline" ∧
    (clickHandler (mkPage aaplDom) FetchResult.exn).finallyRan = true :=
  ⟨rfl, rfl,
    (button_restored_on_all_paths (mkPage aaplDom) FetchResult.exn rfl rfl).1,
    (button_restored_on_all_paths (mkPage aaplDom) FetchResult.exn rfl rfl).2.2.1
      (by decide)⟩

/-- "At most one live chart object, and every live chart is the one
`stockChart` references." -/
def ChartStInv (c : ChartState) : Prop :=
  c.live.length ≤ 1 ∧ ∀ cid ∈ c.live, c.stockChart = some cid

/-- The chart invariant, read off a whole page state. -/
def ChartInv (st : PageState) : Prop := ChartStInv st.chart

/-- A chart state with no live chart satisfies the invariant. -/
theorem chartStInv_of_live_nil (c : ChartState) (h : c.live = []) :
    ChartStInv c := by
  constructor <;> simp [h]

/-- Under the invariant, `if (stockChart) stockChart.destroy()` leaves no
live chart object. -/
theorem destroy_live_eq_nil (c : ChartState) (h : ChartStInv c) :
    (destroyCurrent c).live = [] := by
  obtain ⟨hlen, hall⟩ := h
  unfold destroyCurrent
  cases hc : c.stockChart with
  | none =>
    simp only
    rcases List.eq_nil_or_concat c.live with hnil | ⟨l, a, hconcat⟩
    · exact hnil
    · exact absurd (hall a (by simp [hconcat])) (by simp [hc])
  | some cid =>
    simp only
    cases hl : c.live with
    | nil => simp
    | cons a t =>
      have ha : a = cid := by
        have := hall a (by simp [hl])
        rw [hc] at this
        exact (Option.some_inj.mp this).symm
      have ht : t = [] := by
        rw [hl] at hlen
        simpa using hlen
      simp [hl, ha, ht]

/-- Every run of the handler either leaves the chart state alone, only
destroys the current chart, or destroys the current chart and then creates
exactly one new one. -/
theorem clickHandler_chart_cases (st : PageState) (fr : FetchResult) :
    (clickHandler st fr).st.chart = st.chart ∨
    (clickHandler st fr).st.chart = destroyCurrent st.chart ∨
    ∃ cfg, (clickHandler st fr).st.chart = createChart cfg (destroyCurrent st.chart) := by
  by_cases h : jsTrim st.dom.tickerInputValue = ""
  · left; simp [clickHandler, h]
  · cases fr with
    | exn => left; simp [clickHandler, tryBlock, h]
    | ok data =>
      by_cases he : errTruthy data.error
      · left; simp [clickHandler, tryBlock, h, he]
      · rcases hpd : predictedDataset data with u | pd
        · right; left
          simp [clickHandler, tryBlock, h, he, hpd, destroyCurrent]
        · right; right
          refine ⟨{ labels := combinedLabels data,
                    historicalData := data.history_closes,
                    predictedData := pd }, ?_⟩
          simp [clickHandler, tryBlock, h, he, hpd, destroyCurrent, createChart]

/-- C6: the chart reference is null at page load with no chart object
alive, and the invariant "at most one live chart object, referenced by
`stockChart`" is preserved by every handler invocation — so any sequence of
clicks, in particular two in succession, leaves at most one chart alive
(the prior one is destroyed before the new one is built). -/
theorem chart_at_most_one_live :
    initialChartState.stockChart = none ∧
    (∀ d : Dom, ChartInv (mkPage d)) ∧
    ∀ (st : PageState) (fr : FetchResult), ChartInv st →
      ChartInv (clickHandler st fr).st ∧
      (clickHandler st fr).st.chart.live.length ≤ 1 := by
  refine ⟨rfl, fun d => ⟨by simp [mkPage, initialChartState], by simp [mkPage, initialChartState]⟩, ?_⟩
  intro st fr hinv
  have hnil := destroy_live_eq_nil st.chart hinv
  have hmain : ChartInv (clickHandler st fr).st := by
    rcases clickHandler_chart_cases st fr with hcase | hcase | ⟨cfg, hcase⟩
    · unfold ChartInv; rw [hcase]; exact hinv
    · unfold ChartInv; rw [hcase]
      exact chartStInv_of_live_nil _ hnil
    · unfold ChartInv; rw [hcase]
      constructor
      · simp [createChart, hnil]
      · simp [createChart, hnil]
  exact ⟨hmain, hmain.1⟩

/-- Witness for C6: the invariant survives a concrete click on a concrete
page satisfying it. -/
theorem chart_at_most_one_live_witness :
    ChartInv (mkPage aaplDom) ∧
    ChartInv (clickHandler (mkPage aaplDom) (FetchResult.ok sampleResp)).st ∧
    (clickHandler (mkPage aaplDom) (FetchResult.ok sampleResp)).st.chart.live.length ≤ 1 :=
  ⟨⟨by decide, by decide⟩,
    (chart_at_most_one_live.2.2 (mkPage aaplDom) (FetchResult.ok sampleResp)
      ⟨by decide, by decide⟩).1,
    (chart_at_most_one_live.2.2 (mkPage aaplDom) (FetchResult.ok sampleResp)
      ⟨by decide, by decide⟩).2⟩

/-- C8: a click that ends in a remote failure — an application-reported
error field or a transport/parse exception — performs no partial rendering:
the six result text fields, the results/info sections, and the chart state
are all exactly as they were before the click (both throwing operations
precede any result rendering, and the error-field branch returns before
it). -/
theorem failure_no_partial_rendering (st : PageState) (fr : FetchResult)
    (hTick : jsTrim st.dom.tickerInputValue ≠ "")
    (hFail : fr = FetchResult.exn ∨
      ∃ data s, fr = FetchResult.ok data ∧ data.error = some s ∧ s ≠ "") :
    (clickHandler st fr).st.dom.tickerDisplayText = st.dom.tickerDisplayText ∧
    (clickHandler st fr).st.dom.currentPriceText = st.dom.currentPriceText ∧
    (clickHandler st fr).st.dom.predictedPriceText = st.dom.predictedPriceText ∧
    (clickHandler st fr).st.dom.priceChangeText = st.dom.priceChangeText ∧
    (clickHandler st fr).st.dom.percentChangeText = st.dom.percentChangeText ∧
    (clickHandler st fr).st.dom.badgeText = st.dom.badgeText ∧
    (clickHandler st fr).st.dom.badgeClassName = st.dom.badgeClassName ∧
    (clickHandler st fr).st.dom.resultsSectionDisplay = st.dom.resultsSectionDisplay ∧
    (clickHandler st fr).st.dom.infoSectionDisplay = st.dom.infoSectionDisplay ∧
    (clickHandler st fr).st.chart = st.chart := by
  rcases hFail with h | ⟨data, s, hfr, hErr, hNe⟩
  · subst h
    simp [clickHandler, tryBlock, hTick]
  · subst hfr
    simp [clickHandler, tryBlock, hTick, errTruthy, hErr, hNe]

/-- Witness for C8: a transport exception on a concrete page. -/
theorem failure_no_partial_rendering_witness :
    jsTrim (mkPage aaplDom).dom.tickerInputValue ≠ "" ∧
    (FetchResult.exn = FetchResult.exn ∨
      ∃ data s, FetchResult.exn = FetchResult.ok data ∧
        data.error = some s ∧ s ≠ "") ∧
    (clickHandler (mkPage aaplDom) FetchResult.exn).st.chart = (mkPage aaplDom).chart :=
  ⟨by decide, Or.inl rfl,
    (failure_no_partial_rendering (mkPage aaplDom) FetchResult.exn (by decide)
      (Or.inl rfl)).2.2.2.2.2.2.2.2.2⟩

/-- On the success path (validated ticker, no error field), the six result
text fields, the badge and the section visibilities hold the rendered
values — whether or not the later chart construction throws. -/
theorem clickHandler_success_fields (st : PageState) (data : PredResponse)
    (hTick : jsTrim st.dom.tickerInputValue ≠ "")
    (hErr : errTruthy data.error = false) :
    (clickHandler st (FetchResult.ok data)).st.dom.tickerDisplayText = data.ticker ∧
    (clickHandler st (FetchResult.ok data)).st.dom.currentPriceText =
      "$" ++ ratToJsString data.last_close ∧
    (clickHandler st (FetchResult.ok data)).st.dom.predictedPriceText =
      "$" ++ ratToJsString data.predicted_price ∧
    (clickHandler st (FetchResult.ok data)).st.dom.priceChangeText =
      "$" ++ changeString data ∧
    (clickHandler st (FetchResult.ok data)).st.dom.percentChangeText =
      percentString data ++ "%" ∧
    (clickHandler st (FetchResult.ok data)).st.dom.badgeText =
      (if 0 ≤ changeValue data then "Bullish ↑" else "Bearish ↓") ∧
    (clickHandler st (FetchResult.ok data)).st.dom.badgeClassName =
      "badge " ++ (if 0 ≤ changeValue data then "positive" else "negative") ∧
    (clickHandler st (FetchResult.ok data)).st.dom.resultsSectionDisplay = "block" ∧
    (clickHandler st (FetchResult.ok data)).st.dom.infoSectionDisplay = "none" := by
  rcases hpd : predictedDataset data with u | pd <;>
    simp [clickHandler, tryBlock, hTick, hErr, hpd, renderResults]

/-- `toFixed(2)` integer for the value `5` (and `-5`, by absolute value). -/
theorem fix2Int_five : fix2Int 5 = 500 := by
  norm_num [fix2Int]

/-- `fix2Int` is even on negation. -/
theorem fix2Int_neg_five : fix2Int (-5) = 500 := by
  norm_num [fix2Int]

/-- `(5).toFixed(2) = "5.00"`. -/
theorem fmtFix2_five : fmtFix2 5 = "5.00" := by
  rw [fmtFix2, fix2Int_five]
  norm_num
  decide

/-- `(-5).toFixed(2) = "-5.00"`. -/
theorem fmtFix2_neg_five : fmtFix2 (-5) = "-5.00" := by
  rw [fmtFix2, fix2Int_neg_five]
  norm_num
  decide

/-- The numeric value `toNumber("5.00")` of the rendered change. -/
theorem fix2_five : fix2 5 = 5 := by
  norm_num [fix2, fix2Int]

/-- The numeric value `toNumber("-5.00")` of the rendered change. -/
theorem fix2_neg_five : fix2 (-5) = -5 := by
  norm_num [fix2, fix2Int]

/-- `(("5.00" / 100) * 100).toFixed(2) = "5.00"`. -/
theorem percent_five_of_hundred :
    jToFixed2 (jmul100 (jdiv (fix2 (105 - 100)) 100)) = "5.00" := by
  have h0 : (105 : ℚ) - 100 = 5 := by norm_num
  rw [h0, fix2_five]
  have h2 : jdiv 5 100 = JNum.fin (1 / 20) := by norm_num [jdiv]
  rw [h2]
  have h3 : jmul100 (JNum.fin (1 / 20)) = JNum.fin 5 := by norm_num [jmul100]
  rw [h3, jToFixed2, fmtFix2_five]

/-- C3: five dollars up on a hundred-dollar close renders change "$5.00",
percent "5.00%", badge "Bullish ↑" with className "badge positive" (so the
element carries the class `positive`); five dollars down renders badge
"Bearish ↓" with className "badge negative". -/
theorem change_and_badge_rendering (st st' : PageState)
    (d1 d2 : PredResponse)
    (hTick : jsTrim st.dom.tickerInputValue ≠ "")
    (hTick' : jsTrim st'.dom.tickerInputValue ≠ "")
    (hErr1 : errTruthy d1.error = false) (hErr2 : errTruthy d2.error = false)
    (hL1 : d1.last_close = 100) (hP1 : d1.predicted_price = 105)
    (hL2 : d2.last_close = 100) (hP2 : d2.predicted_price = 95) :
    (clickHandler st (FetchResult.ok d1)).st.dom.priceChangeText = "$5.00" ∧
    (clickHandler st (FetchResult.ok d1)).st.dom.percentChangeText = "5.00%" ∧
    (clickHandler st (FetchResult.ok d1)).st.dom.badgeText = "Bullish ↑" ∧
    (clickHandler st (FetchResult.ok d1)).st.dom.badgeClassName = "badge positive" ∧
    (clickHandler st' (FetchResult.ok d2)).st.dom.badgeText = "Bearish ↓" ∧
    (clickHandler st' (FetchResult.ok d2)).st.dom.badgeClassName = "badge negative" := by
  obtain ⟨-, -, -, hpc1, hpct1, hb1, hbc1, -, -⟩ :=
    clickHandler_success_fields st d1 hTick hErr1
  obtain ⟨-, -, -, -, -, hb2, hbc2, -, -⟩ :=
    clickHandler_success_fields st' d2 hTick' hErr2
  have hcv1 : changeValue d1 = 5 := by
    rw [changeValue, hP1, hL1]
    have : (105 : ℚ) - 100 = 5 := by norm_num
    rw [this, fix2_five]
  have hcv2 : changeValue d2 = -5 := by
    rw [changeValue, hP2, hL2]
    have : (95 : ℚ) - 100 = -5 := by norm_num
    rw [this, fix2_neg_five]
  have hcs1 : changeString d1 = "5.00" := by
    rw [changeString, hP1, hL1]
    have : (105 : ℚ) - 100 = 5 := by norm_num
    rw [this, fmtFix2_five]
  have hps1 : percentString d1 = "5.00" := by
    rw [percentString, changeValue, hP1, hL1]
    exact percent_five_of_hundred
  refine ⟨?_, ?_, ?_, ?_, ?_, ?_⟩
  · rw [hpc1, hcs1]; decide
  · rw [hpct1, hps1]; decide
  · rw [hb1, hcv1]; norm_num
  · rw [hbc1, hcv1]; norm_num; decide
  · rw [hb2, hcv2]; norm_num
  · rw [hbc2, hcv2]; norm_num; decide

/-- A bearish sample response (95 predicted against a 100 close). -/
def bearResp : PredResponse :=
  { sampleResp with predicted_price := 95 }

/-- Witness for C3: the two concrete responses of the claim. -/
theorem change_and_badge_rendering_witness :
    jsTrim (mkPage aaplDom).dom.tickerInputValue ≠ "" ∧
    errTruthy sampleResp.error = false ∧
    sampleResp.last_close = 100 ∧ sampleResp.predicted_price = 105 ∧
    bearResp.last_close = 100 ∧ bearResp.predicted_price = 95 ∧
    ((clickHandler (mkPage aaplDom) (FetchResult.ok sampleResp)).st.dom.priceChangeText = "$5.00" ∧
     (clickHandler (mkPage aaplDom) (FetchResult.ok sampleResp)).st.dom.percentChangeText = "5.00%" ∧
     (clickHandler (mkPage aaplDom) (FetchResult.ok sampleResp)).st.dom.badgeText = "Bullish ↑" ∧
     (clickHandler (mkPage aaplDom) (FetchResult.ok sampleResp)).st.dom.badgeClassName = "badge positive" ∧
     (clickHandler (mkPage aaplDom) (FetchResult.ok bearResp)).st.dom.badgeText = "Bearish ↓" ∧
     (clickHandler (mkPage aaplDom) (FetchResult.ok bearResp)).st.dom.badgeClassName = "badge negative") :=
  ⟨by decide, rfl, rfl, rfl, rfl, rfl,
    change_and_badge_rendering (mkPage aaplDom) (mkPage aaplDom) sampleResp bearResp
      (by decide) (by decide) rfl rfl rfl rfl rfl rfl⟩

/-- C9: the percent computation divides by `last_close` unguarded; with a
zero last close the handler does not throw on the division — it continues
the success path (results section is shown) and the percent field receives
a non-finite rendering: "Infinity%", "-Infinity%" or "NaN%" according to
the sign of the change. -/
theorem zero_baseline_nonfinite_percent (st : PageState) (data : PredResponse)
    (hTick : jsTrim st.dom.tickerInputValue ≠ "")
    (hErr : errTruthy data.error = false)
    (hZero : data.last_close = 0) :
    ((clickHandler st (FetchResult.ok data)).st.dom.percentChangeText = "Infinity%" ∨
     (clickHandler st (FetchResult.ok data)).st.dom.percentChangeText = "-Infinity%" ∨
     (clickHandler st (FetchResult.ok data)).st.dom.percentChangeText = "NaN%") ∧
    (clickHandler st (FetchResult.ok data)).st.dom.resultsSectionDisplay = "block" := by
  obtain ⟨-, -, -, -, hpct, -, -, hrs, -⟩ :=
    clickHandler_success_fields st data hTick hErr
  refine ⟨?_, hrs⟩
  rw [hpct, percentString, hZero]
  rcases lt_trichotomy (changeValue data) 0 with hlt | heq | hgt
  · right; left
    simp [jdiv, hlt, hlt.not_lt, jmul100, jToFixed2]
  · right; right
    simp [jdiv, heq, jmul100, jToFixed2]
  · left
    simp [jdiv, hgt, jmul100, jToFixed2]

/-- A well-formed response whose last close is zero. -/
def zeroCloseResp : PredResponse :=
  { sampleResp with last_close := 0 }

/-- Witness for C9: a concrete zero-baseline response. -/
theorem zero_baseline_nonfinite_percent_witness :
    jsTrim (mkPage aaplDom).dom.tickerInputValue ≠ "" ∧
    errTruthy zeroCloseResp.error = false ∧
    zeroCloseResp.last_close = 0 ∧
    (((clickHandler (mkPage aaplDom) (FetchResult.ok zeroCloseResp)).st.dom.percentChangeText = "Infinity%" ∨
      (clickHandler (mkPage aaplDom) (FetchResult.ok zeroCloseResp)).st.dom.percentChangeText = "-Infinity%" ∨
      (clickHandler (mkPage aaplDom) (FetchResult.ok zeroCloseResp)).st.dom.percentChangeText = "NaN%") ∧
     (clickHandler (mkPage aaplDom) (FetchResult.ok zeroCloseResp)).st.dom.resultsSectionDisplay = "block") :=
  ⟨by decide, rfl, rfl,
    zero_baseline_nonfinite_percent (mkPage aaplDom) zeroCloseResp
      (by decide) rfl rfl⟩

/-- C10: a well-formed, error-free response with an empty
`history.closes` makes the predicted-dataset construction throw (JS
`new Array(-1)` raises a RangeError); the handler's catch then shows
"Error connecting to server." even though the connection succeeded — and by
then the six result text fields already hold the freshly rendered values. -/
theorem empty_history_range_error (st : PageState) (data : PredResponse)
    (hTick : jsTrim st.dom.tickerInputValue ≠ "")
    (hErr : errTruthy data.error = false)
    (hEmpty : data.history_closes = []) :
    predictedDataset data = Except.error () ∧
    (clickHandler st (FetchResult.ok data)).st.dom.errorMessageText =
      "Error connecting to server." ∧
    (clickHandler st (FetchResult.ok data)).st.dom.errorMessageDisplay = "block" ∧
    (clickHandler st (FetchResult.ok data)).st.dom.tickerDisplayText = data.ticker ∧
    (clickHandler st (FetchResult.ok data)).st.dom.currentPriceText =
      "$" ++ ratToJsString data.last_close ∧
    (clickHandler st (FetchResult.ok data)).st.dom.predictedPriceText =
      "$" ++ ratToJsString data.predicted_price ∧
    (clickHandler st (FetchResult.ok data)).st.dom.priceChangeText =
      "$" ++ changeString data ∧
    (clickHandler st (FetchResult.ok data)).st.dom.percentChangeText =
      percentString data ++ "%" ∧
    ((clickHandler st (FetchResult.ok data)).st.dom.badgeText = "Bullish ↑" ∨
     (clickHandler st (FetchResult.ok data)).st.dom.badgeText = "Bearish ↓") := by
  have hpd : predictedDataset data = Except.error () := by
    simp [predictedDataset, hEmpty]
  refine ⟨hpd, ?_⟩
  by_cases hcv : 0 ≤ changeValue data <;>
    simp [clickHandler, tryBlock, hTick, hErr, hpd, renderResults, hcv]

/-- A well-formed, error-free response with an empty closes history. -/
def emptyHistResp : PredResponse :=
  { sampleResp with history_closes := [] }

/-- Witness for C10: a concrete empty-history response. -/
theorem empty_history_range_error_witness :
    jsTrim (mkPage aaplDom).dom.tickerInputValue ≠ "" ∧
    errTruthy emptyHistResp.error = false ∧
    emptyHistResp.history_closes = [] ∧
    (predictedDataset emptyHistResp = Except.error () ∧
     (clickHandler (mkPage aaplDom) (FetchResult.ok emptyHistResp)).st.dom.errorMessageText =
       "Error connecting to server." ∧
     (clickHandler (mkPage aaplDom) (FetchResult.ok emptyHistResp)).st.dom.errorMessageDisplay = "block" ∧
     (clickHandler (mkPage aaplDom) (FetchResult.ok emptyHistResp)).st.dom.tickerDisplayText = emptyHistResp.ticker ∧
     (clickHandler (mkPage aaplDom) (FetchResult.ok emptyHistResp)).st.dom.currentPriceText =
       "$" ++ ratToJsString emptyHistResp.last_close ∧
     (clickHandler (mkPage aaplDom) (FetchResult.ok emptyHistResp)).st.dom.predictedPriceText =
       "$" ++ ratToJsString emptyHistResp.predicted_price ∧
     (clickHandler (mkPage aaplDom) (FetchResult.ok emptyHistResp)).st.dom.priceChangeText =
       "$" ++ changeString emptyHistResp ∧
     (clickHandler (mkPage aaplDom) (FetchResult.ok emptyHistResp)).st.dom.percentChangeText =
       percentString emptyHistResp ++ "%" ∧
     ((clickHandler (mkPage aaplDom) (FetchResult.ok emptyHistResp)).st.dom.badgeText = "Bullish ↑" ∨
      (clickHandler (mkPage aaplDom) (FetchResult.ok emptyHistResp)).st.dom.badgeText = "Bearish ↓")) :=
  ⟨by decide, rfl, rfl,
    empty_history_range_error (mkPage aaplDom) emptyHistResp
      (by decide) rfl rfl⟩

/-- C7: for a well-formed, error-free response (with the non-empty closes
history the construction needs to not throw), the constructed chart's
labels are history dates ++ predicted dates, its historical dataset is
`history.closes`, its predicted dataset is `length(closes) - 1` null
placeholders, then `last_close`, then the predicted prices — so its entry
at the last historical index is `last_close`, making the predicted line
start at the last historical point; and the combined price sequence the
handler builds is closes ++ predicted prices. -/
theorem chart_series_composition (st : PageState) (data : PredResponse)
    (hTick : jsTrim st.dom.tickerInputValue ≠ "")
    (hErr : errTruthy data.error = false)
    (hNe : data.history_closes ≠ []) :
    (clickHandler st (FetchResult.ok data)).st.chart.lastConfig = some
      { labels := data.history_dates ++ data.predicted.map (fun p => p.1)
        historicalData := data.history_closes
        predictedData := List.replicate (data.history_closes.length - 1) none
          ++ [some data.last_close] ++ data.predicted.map (fun p => some p.2) } ∧
    combinedPrices data = data.history_closes ++ data.predicted.map (fun p => p.2) ∧
    (List.replicate (data.history_closes.length - 1) none
      ++ [some data.last_close]
      ++ data.predicted.map (fun p => some p.2))[data.history_closes.length - 1]?
      = some (some data.last_close) := by
  have hlen : data.history_closes.length ≠ 0 := by
    intro h
    exact hNe (List.length_eq_zero.mp h)
  have hpd : predictedDataset data =
      Except.ok (List.replicate (data.history_closes.length - 1) none
        ++ [some data.last_close] ++ data.predicted.map (fun p => some p.2)) := by
    simp [predictedDataset, hlen]
  refine ⟨?_, rfl, ?_⟩
  · simp [clickHandler, tryBlock, hTick, hErr, hpd, createChart, combinedLabels,
      destroyCurrent]
  · rw [List.append_assoc, List.getElem?_append_right (by simp)]
    simp

/-- Witness for C7: the sample response with a two-point history. -/
theorem chart_series_composition_witness :
    jsTrim (mkPage aaplDom).dom.tickerInputValue ≠ "" ∧
    errTruthy sampleResp.error = false ∧
    sampleResp.history_closes ≠ [] ∧
    ((clickHandler (mkPage aaplDom) (FetchResult.ok sampleResp)).st.chart.lastConfig = some
      { labels := sampleResp.history_dates ++ sampleResp.predicted.map (fun p => p.1)
        historicalData := sampleResp.history_closes
        predictedData := List.replicate (sampleResp.history_closes.length - 1) none
          ++ [some sampleResp.last_close] ++ sampleResp.predicted.map (fun p => some p.2) } ∧
     combinedPrices sampleResp =
       sampleResp.history_closes ++ sampleResp.predicted.map (fun p => p.2) ∧
     (List.replicate (sampleResp.history_closes.length - 1) none
       ++ [some sampleResp.last_close]
       ++ sampleResp.predicted.map (fun p => some p.2))[sampleResp.history_closes.length - 1]?
       = some (some sampleResp.last_close)) :=
  ⟨by decide, rfl, by decide,
    chart_series_composition (mkPage aaplDom) sampleResp
      (by decide) rfl (by decide)⟩
